import Mathlib

/-
Verification of the docker-db crate (src/lib.rs): an ephemeral Postgres
container handle. Strings are modelled as lists of Unicode characters
(`Rstr`), raw process output as lists of bytes (`List Nat`), and the external
command gateway as a function from an `Invocation` (program plus argument
list, exactly what `std::process::Command` receives) to an optional captured
`Output`. All definitions are direct translations of the Rust source; the
network-address grammar is the one implemented by `core::net::parser` for
`SocketAddr`, which `str::parse::<SocketAddr>` uses.
-/

namespace DockerDb

/-- Rust strings are modelled as lists of Unicode scalar values. -/
abbrev Rstr := List Char

/-- The Unicode White_Space property, as used by Rust `char::is_whitespace`. -/
def rustIsWhitespace (c : Char) : Bool :=
  let n := c.toNat
  (9 ≤ n && n ≤ 13) || n == 32 || n == 133 || n == 160 || n == 5760 ||
    (8192 ≤ n && n ≤ 8202) || n == 8232 || n == 8233 || n == 8239 ||
    n == 8287 || n == 12288

/-- Accumulator-based splitter behind `splitWhitespace`; `acc` holds the
characters of the current token in reverse order. -/
def splitWhitespaceAux : List Char → List Char → List Rstr
  | [], acc =>
    match acc with
    | [] => []
    | _ :: _ => [acc.reverse]
  | c :: cs, acc =>
    if rustIsWhitespace c then
      match acc with
      | [] => splitWhitespaceAux cs []
      | _ :: _ => acc.reverse :: splitWhitespaceAux cs []
    else splitWhitespaceAux cs (c :: acc)

/-- Rust `str::split_whitespace`: the maximal non-whitespace runs, in order;
no empty tokens are produced. -/
def splitWhitespace (s : Rstr) : List Rstr := splitWhitespaceAux s []

/-- Rust `str::trim`: remove leading and trailing Unicode whitespace. -/
def rustTrim (s : Rstr) : Rstr :=
  ((s.dropWhile rustIsWhitespace).reverse.dropWhile rustIsWhitespace).reverse

/-- Rust `str::split(' ')` as used by `run_cmd_to_output`: split on the single
ASCII space character, keeping empty pieces (so consecutive spaces yield empty
strings, and the result is never the empty list). -/
def splitOnSpace : List Char → List Rstr
  | [] => [[]]
  | c :: cs =>
    if c = ' ' then [] :: splitOnSpace cs
    else
      match splitOnSpace cs with
      | t :: ts => (c :: t) :: ts
      | [] => [[c]]

/-- Whether a byte is a UTF-8 continuation byte (0x80–0xBF). -/
def isUtf8Cont (b : Nat) : Bool := 128 ≤ b && b ≤ 191

/-- Strict UTF-8 decoding of a byte sequence into Unicode scalar values,
exactly the validation performed by Rust `String::from_utf8`: rejects
overlong encodings, surrogates and code points above 0x10FFFF. -/
def utf8Decode : List Nat → Option (List Nat)
  | [] => some []
  | b :: bs =>
    if b ≤ 127 then (utf8Decode bs).map (fun r => b :: r)
    else if 194 ≤ b && b ≤ 223 then
      match bs with
      | b1 :: bs1 =>
        if isUtf8Cont b1 then
          (utf8Decode bs1).map (fun r => ((b - 192) * 64 + (b1 - 128)) :: r)
        else none
      | [] => none
    else if 224 ≤ b && b ≤ 239 then
      match bs with
      | b1 :: b2 :: bs2 =>
        let lo1 : Nat := if b == 224 then 160 else 128
        let hi1 : Nat := if b == 237 then 159 else 191
        if lo1 ≤ b1 && b1 ≤ hi1 && isUtf8Cont b2 then
          (utf8Decode bs2).map
            (fun r => ((b - 224) * 4096 + (b1 - 128) * 64 + (b2 - 128)) :: r)
        else none
      | _ => none
    else if 240 ≤ b && b ≤ 244 then
      match bs with
      | b1 :: b2 :: b3 :: bs3 =>
        let lo1 : Nat := if b == 240 then 144 else 128
        let hi1 : Nat := if b == 244 then 143 else 191
        if lo1 ≤ b1 && b1 ≤ hi1 && isUtf8Cont b2 && isUtf8Cont b3 then
          (utf8Decode bs3).map
            (fun r =>
              ((b - 240) * 262144 + (b1 - 128) * 4096 + (b2 - 128) * 64 +
                (b3 - 128)) :: r)
        else none
      | _ => none
    else none

/-- Network addresses as parsed by Rust `std::net::SocketAddr`:
an IPv4 address with a port, or an IPv6 address (eight 16-bit groups)
with a port and a numeric scope id. -/
inductive SocketAddr where
  | v4 (a b c d : Nat) (port : Nat)
  | v6 (groups : List Nat) (port : Nat) (scope : Nat)
  deriving DecidableEq, Repr

/-- The port of a socket address. -/
def SocketAddr.port : SocketAddr → Nat
  | .v4 _ _ _ _ p => p
  | .v6 _ p _ => p

/-- Rust `char::to_digit radix` restricted to the radices 10 and 16 used by
the address parser. -/
def digitVal (radix : Nat) (c : Char) : Option Nat :=
  let n := c.toNat
  if 48 ≤ n && n ≤ 57 && n - 48 < radix then some (n - 48)
  else if radix == 16 && 97 ≤ n && n ≤ 102 then some (n - 87)
  else if radix == 16 && 65 ≤ n && n ≤ 70 then some (n - 55)
  else none

/-- The digit-consuming loop of `Parser::read_number` in `core::net::parser`:
consume digits greedily, failing on overflow past `maxVal` or on exceeding
`maxDigits`; returns the value, the digit count, and the rest of the input. -/
def readNumLoop (radix maxVal : Nat) (maxDigits : Option Nat) :
    Nat → Nat → List Char → Option (Nat × Nat × List Char)
  | acc, count, [] => some (acc, count, [])
  | acc, count, c :: cs =>
    match digitVal radix c with
    | none => some (acc, count, c :: cs)
    | some d =>
      let acc2 := acc * radix + d
      if maxVal < acc2 then none
      else
        match maxDigits with
        | some m =>
          if m < count + 1 then none
          else readNumLoop radix maxVal maxDigits acc2 (count + 1) cs
        | none => readNumLoop radix maxVal maxDigits acc2 (count + 1) cs

/-- `Parser::read_number`: read a number in the given radix, with an optional
digit-count limit, an upper bound coming from the target integer width, and
the leading-zero policy of the Rust parser. -/
def readNumber (radix : Nat) (maxDigits : Option Nat) (allowZeroPrefix : Bool)
    (maxVal : Nat) (s : List Char) : Option (Nat × List Char) :=
  let hasLeadingZero : Bool :=
    match s with
    | c :: _ => c == '0'
    | [] => false
  match readNumLoop radix maxVal maxDigits 0 0 s with
  | none => none
  | some (v, count, rest) =>
    if count == 0 then none
    else if !allowZeroPrefix && hasLeadingZero && 1 < count then none
    else some (v, rest)

/-- `Parser::read_given_char`: consume exactly the given character. -/
def readGivenChar (c : Char) (s : List Char) : Option (List Char) :=
  match s with
  | d :: rest => if d == c then some rest else none
  | [] => none

/-- `Parser::read_ipv4_addr`: four decimal octets (at most three digits each,
no leading zeros, value at most 255) separated by dots. -/
def readIpv4 (s : List Char) : Option ((Nat × Nat × Nat × Nat) × List Char) := do
  let (a, s) ← readNumber 10 (some 3) false 255 s
  let s ← readGivenChar '.' s
  let (b, s) ← readNumber 10 (some 3) false 255 s
  let s ← readGivenChar '.' s
  let (c, s) ← readNumber 10 (some 3) false 255 s
  let s ← readGivenChar '.' s
  let (d, s) ← readNumber 10 (some 3) false 255 s
  pure ((a, b, c, d), s)

/-- The `read_groups` helper of `Parser::read_ipv6_addr`: read up to
`rem` colon-separated 16-bit hex groups (`first` marks whether a leading
colon separator is required), allowing a trailing embedded IPv4 address in
any slot but the last; returns the groups read, whether an embedded IPv4
address was used, and the rest of the input (unchanged past the last
successfully read group). -/
def readGroupsAux : Nat → Bool → List Nat → List Char → (List Nat × Bool × List Char)
  | 0, _, acc, s => (acc, false, s)
  | rem + 1, first, acc, s =>
    let sepRead : List Char → Option (List Char) :=
      fun t => if first then some t else readGivenChar ':' t
    let tryV4 : Option (List Nat × Bool × List Char) :=
      if rem == 0 then none
      else
        match sepRead s with
        | none => none
        | some s1 =>
          match readIpv4 s1 with
          | none => none
          | some ((a, b, c, d), s2) =>
            some (acc ++ [a * 256 + b, c * 256 + d], true, s2)
    match tryV4 with
    | some r => r
    | none =>
      match sepRead s with
      | none => (acc, false, s)
      | some s1 =>
        match readNumber 16 (some 4) true 65535 s1 with
        | none => (acc, false, s)
        | some (g, s2) => readGroupsAux rem false (acc ++ [g]) s2

/-- `Parser::read_ipv6_addr`: head groups, then optionally a double colon and
tail groups, yielding exactly eight 16-bit groups. -/
def readIpv6 (s : List Char) : Option (List Nat × List Char) :=
  match readGroupsAux 8 true [] s with
  | (head, headV4, s1) =>
    if head.length == 8 then some (head, s1)
    else if headV4 then none
    else
      match readGivenChar ':' s1 with
      | none => none
      | some s2 =>
        match readGivenChar ':' s2 with
        | none => none
        | some s3 =>
          match readGroupsAux (8 - (head.length + 1)) true [] s3 with
          | (tl, _, s4) =>
            some (head ++ List.replicate (8 - head.length - tl.length) 0 ++ tl, s4)

/-- `Parser::read_scope_id`, made optional as at its use site: a percent sign
followed by a decimal `u32`; if absent or unparseable, scope 0 and no input
consumed. -/
def readScopeId (s : List Char) : (Nat × List Char) :=
  match readGivenChar '%' s with
  | none => (0, s)
  | some s1 =>
    match readNumber 10 none true 4294967295 s1 with
    | none => (0, s)
    | some (v, s2) => (v, s2)

/-- `Parser::read_port`: a colon followed by a decimal `u16`
(leading zeros allowed). -/
def readPort (s : List Char) : Option (Nat × List Char) :=
  match readGivenChar ':' s with
  | none => none
  | some s1 => readNumber 10 none true 65535 s1

/-- `Parser::read_socket_addr_v4`: an IPv4 address followed by a port. -/
def readSocketAddrV4 (s : List Char) : Option (SocketAddr × List Char) := do
  let ((a, b, c, d), s1) ← readIpv4 s
  let (p, s2) ← readPort s1
  pure (SocketAddr.v4 a b c d p, s2)

/-- `Parser::read_socket_addr_v6`: a bracketed IPv6 address with an optional
scope id, followed by a port. -/
def readSocketAddrV6 (s : List Char) : Option (SocketAddr × List Char) := do
  let s1 ← readGivenChar '[' s
  let (groups, s2) ← readIpv6 s1
  let (scope, s3) := readScopeId s2
  let s4 ← readGivenChar ']' s3
  let (p, s5) ← readPort s4
  pure (SocketAddr.v6 groups p scope, s5)

/-- `Parser::read_socket_addr`: IPv4 form first, IPv6 form otherwise. -/
def readSocketAddr (s : List Char) : Option (SocketAddr × List Char) :=
  match readSocketAddrV4 s with
  | some r => some r
  | none => readSocketAddrV6 s

/-- Rust `str::parse::<SocketAddr>`: the parser must consume the whole
string. -/
def parseSocketAddr (s : Rstr) : Option SocketAddr :=
  match readSocketAddr s with
  | some (a, []) => some a
  | _ => none

/-- The crate's error type, with the `thiserror` display messages attached
below in `Error.message`. -/
inductive Error where
  | InvalidOutput
  | FailedToParsePorts
  deriving DecidableEq, Repr

/-- The `#[error(...)]` display messages of the two variants. -/
def Error.message : Error → Rstr
  | .InvalidOutput => ("Command output was invalid format (non utf-8)").data
  | .FailedToParsePorts =>
      ("Failed to parse exposed ports, is your docker daemon running?").data

/-- `parse_exposed_port`: split the input on whitespace, trim each token,
drop empty tokens, then map the fallible address parse over the tokens and
take the first element of that mapped sequence (`.next()`), with a
`FailedToParsePorts` fallback when there is none. -/
def parse_exposed_port (s : Rstr) : Except Error SocketAddr :=
  let parts := ((splitWhitespace s).map rustTrim).filter (fun t => !t.isEmpty)
  match (parts.map (fun p =>
      match parseSocketAddr p with
      | some a => Except.ok a
      | none => Except.error Error.FailedToParsePorts)).head? with
  | none => Except.error Error.FailedToParsePorts
  | some r => r

/-- What `std::process::Command` receives from `run_cmd_to_output`: the
program name `args[0]` and the remaining pieces of the space-split command
line as arguments, in order and verbatim (empty pieces included). -/
structure Invocation where
  program : Rstr
  args : List Rstr
  deriving DecidableEq

/-- The tokenization performed by `run_cmd_to_output` before spawning:
`cmd_str.split(' ')`, first piece as program, rest as arguments. The split
of a string is never empty, so the fallback branch is unreachable. -/
def mkInvocation (cmd : Rstr) : Invocation :=
  match splitOnSpace cmd with
  | t :: ts => ⟨t, ts⟩
  | [] => ⟨[], []⟩

/-- The captured result of a process that was spawned and awaited: its raw
standard-output bytes and its exit status. The standard-error stream is
discarded by the code (`Stdio::null`) and therefore not modelled. -/
structure Output where
  stdout : List Nat
  success : Bool
  deriving DecidableEq

/-- The external world: for each invocation, either `none` (the process could
not be spawned or awaited, `command.output()` returned `Err`) or the captured
`Output`. One fixed `World` describes one execution deterministically. -/
abbrev World := Invocation → Option Output

/-- `run_cmd_to_output`: tokenize the command line, run it, and on spawn
failure return an empty `Ok` string; otherwise decode the captured
standard-output bytes as UTF-8 (failing with `InvalidOutput`) and return the
decoded text trimmed of leading and trailing whitespace. -/
def run_cmd_to_output (world : World) (cmd_str : Rstr) : Except Error Rstr :=
  match world (mkInvocation cmd_str) with
  | none => Except.ok []
  | some out =>
    match utf8Decode out.stdout with
    | none => Except.error Error.InvalidOutput
    | some cps => Except.ok (rustTrim (cps.map Char.ofNat))

/-- The source function named run underscore cmd: run a command for effect, discarding its output text. -/
def run_cmd_for_effect (world : World) (cmd_str : Rstr) : Except Error Unit :=
  match run_cmd_to_output world cmd_str with
  | Except.error e => Except.error e
  | Except.ok _ => Except.ok ()

/-- The handle: a container identity and the parsed socket address. Both
fields are private in the source and never mutated after construction. -/
structure Postgres where
  container_id : Rstr
  socket_addr : SocketAddr
  deriving DecidableEq

/-- The fixed start command of step 1 of `Postgres::spawn`. -/
def spawnCmd : Rstr :=
  ("docker run --rm -d -e POSTGRES_HOST_AUTH_METHOD=trust -p 5432 postgres").data

/-- The port-query command of step 2 of `Postgres::spawn`, built by
`format!("docker container port {container_id} 5432")`. -/
def portCmd (container_id : Rstr) : Rstr :=
  ("docker container port ").data ++ container_id ++ (" 5432").data

/-- The outcome of `Postgres::spawn` together with the trace of the command
lines it issued, in order. -/
structure SpawnResult where
  result : Except Error Postgres
  issued : List Rstr

/-- `Postgres::spawn`: start the container, query the published port, parse
the endpoint; each step propagates its error with `?`. The fixed two-second
settling sleep performs no observable state change and is not modelled. -/
def Postgres.spawn (world : World) : SpawnResult :=
  match run_cmd_to_output world spawnCmd with
  | Except.error e => ⟨Except.error e, [spawnCmd]⟩
  | Except.ok container_id =>
    match run_cmd_to_output world (portCmd container_id) with
    | Except.error e => ⟨Except.error e, [spawnCmd, portCmd container_id]⟩
    | Except.ok exposed_port =>
      match parse_exposed_port exposed_port with
      | Except.error e => ⟨Except.error e, [spawnCmd, portCmd container_id]⟩
      | Except.ok socket_addr =>
        ⟨Except.ok ⟨container_id, socket_addr⟩, [spawnCmd, portCmd container_id]⟩

/-- The stop command issued by `Drop for Postgres`. -/
def stopCmd (container_id : Rstr) : Rstr := ("docker stop ").data ++ container_id

/-- The remove command issued by `Drop for Postgres`. -/
def rmCmd (container_id : Rstr) : Rstr := ("docker rm ").data ++ container_id

/-- The observable effects of one teardown: the command lines issued, in
order, and the diagnostic lines written to standard error. -/
structure TeardownTrace where
  issued : List Rstr
  logged : List Rstr
  deriving DecidableEq

/-- `Drop for Postgres`: issue the stop command; if it failed, log the
failure; then issue the remove command regardless; if it failed, log. The
function is total: no outcome of either command produces an error for the
caller. -/
def Postgres.drop (world : World) (pg : Postgres) : TeardownTrace :=
  let r1 := run_cmd_for_effect world (stopCmd pg.container_id)
  let log1 : List Rstr :=
    match r1 with
    | Except.error e =>
        [("Failed to stop docker container: ").data ++ e.message]
    | Except.ok _ => []
  let r2 := run_cmd_for_effect world (rmCmd pg.container_id)
  let log2 : List Rstr :=
    match r2 with
    | Except.error e =>
        [("Failed to remove docker container: ").data ++ e.message]
    | Except.ok _ => []
  ⟨[stopCmd pg.container_id] ++ [rmCmd pg.container_id], log1 ++ log2⟩

/-- Boolean prefix test on character lists. -/
def listStartsWith : Rstr → Rstr → Bool
  | [], _ => true
  | _ :: _, [] => false
  | p :: ps, c :: cs => p == c && listStartsWith ps cs

/-- A command line that is neither a stop nor a remove command. -/
def noTeardownCmd (c : Rstr) : Bool :=
  !listStartsWith (("docker stop").data) c &&
    !listStartsWith (("docker rm").data) c

/-- The error of the first failing step of the launch sequence, if any:
step 1 (start), step 2 (port query), then step 3 (endpoint parse). -/
def firstStepError (world : World) : Option Error :=
  match run_cmd_to_output world spawnCmd with
  | Except.error e => some e
  | Except.ok container_id =>
    match run_cmd_to_output world (portCmd container_id) with
    | Except.error e => some e
    | Except.ok exposed_port =>
      match parse_exposed_port exposed_port with
      | Except.error e => some e
      | Except.ok _ => none

/-- Modelled from the spec's words for C1: scan the whitespace-separated
tokens in order and return the first one that parses as a valid network
address, skipping malformed tokens. This is the claimed behavior, to be
compared with `parse_exposed_port`. -/
def specFirstValidToken (s : Rstr) : Option SocketAddr :=
  ((splitWhitespace s).filterMap parseSocketAddr).head?

/-- Modelled from the spec's words for C6: tokenizing the command line into
exactly its non-empty whitespace-separated tokens, any maximal run of
whitespace acting as a single separator. This is the claimed behavior, to be
compared with `mkInvocation`. -/
def specTokenize (cmd : Rstr) : List Rstr := splitWhitespace cmd

/-- The rejoining of pieces with single spaces, inverse to `splitOnSpace`. -/
def joinSpace : List Rstr → Rstr
  | [] => []
  | [t] => t
  | t :: u :: ts => t ++ ' ' :: joinSpace (u :: ts)

/-- A world exhibiting that the gateway's outputs do not force a non-empty
identity: the start command prints nothing, and every other command prints
the parseable endpoint 0.0.0.0:80. -/
def worldFive : World := fun inv =>
  if inv = mkInvocation spawnCmd then some ⟨[], true⟩
  else some ⟨(("0.0.0.0:80").data).map Char.toNat, true⟩

/-- A world in which the launch succeeds with the non-empty identity
"abc123". -/
def worldFiveW : World := fun inv =>
  if inv = mkInvocation spawnCmd then
    some ⟨(("abc123").data).map Char.toNat, true⟩
  else some ⟨(("0.0.0.0:5432").data).map Char.toNat, true⟩

/-! ## Helper lemmas about the token pipeline -/

/-- `List.dropWhile` is the identity on a list none of whose elements satisfy
the predicate. -/
lemma dropWhile_all_false (p : Char → Bool) (l : List Char)
    (h : ∀ c ∈ l, p c = false) : l.dropWhile p = l := by
  cases l with
  | nil => rfl
  | cons c cs =>
    rw [List.dropWhile_cons, h c (List.mem_cons_self c cs)]
    simp

/-- Trimming a token that contains no whitespace is the identity. -/
lemma rustTrim_eq_self (t : Rstr) (h : ∀ c ∈ t, rustIsWhitespace c = false) :
    rustTrim t = t := by
  unfold rustTrim
  rw [dropWhile_all_false _ t h,
    dropWhile_all_false _ t.reverse (fun c hc => h c (List.mem_reverse.mp hc)),
    List.reverse_reverse]

/-- Every token produced by the whitespace splitter is non-empty and contains
no whitespace character. -/
lemma splitWhitespaceAux_tokens :
    ∀ (cs : List Char) (acc : List Char),
      (∀ c ∈ acc, rustIsWhitespace c = false) →
      ∀ t ∈ splitWhitespaceAux cs acc, t ≠ [] ∧ ∀ c ∈ t, rustIsWhitespace c = false := by
  intro cs
  induction cs with
  | nil =>
    intro acc hacc t ht
    cases acc with
    | nil => exact absurd ht (by simp [splitWhitespaceAux])
    | cons a as =>
      have ht2 : t ∈ [(a :: as).reverse] := ht
      rw [List.mem_singleton] at ht2
      subst ht2
      exact ⟨by simp, fun c hc => hacc c (List.mem_reverse.mp hc)⟩
  | cons c cs ih =>
    intro acc hacc t ht
    by_cases hw : rustIsWhitespace c = true
    · cases acc with
      | nil =>
        simp only [splitWhitespaceAux, if_pos hw] at ht
        exact ih [] (fun d hd => nomatch hd) t ht
      | cons a as =>
        simp only [splitWhitespaceAux, if_pos hw] at ht
        rcases List.mem_cons.mp ht with h1 | h2
        · subst h1
          exact ⟨by simp, fun d hd => hacc d (List.mem_reverse.mp hd)⟩
        · exact ih [] (fun d hd => nomatch hd) t h2
    · simp only [splitWhitespaceAux, if_neg hw] at ht
      refine ih (c :: acc) ?_ t ht
      intro d hd
      rcases List.mem_cons.mp hd with h1 | h2
      · rw [h1]
        cases hb : rustIsWhitespace c with
        | false => rfl
        | true => exact absurd hb hw
      · exact hacc d h2

/-- On a list of non-empty whitespace-free tokens, the trim-and-filter stage
of `parse_exposed_port` is the identity. -/
lemma map_filter_tokens (L : List Rstr)
    (h : ∀ t ∈ L, t ≠ [] ∧ ∀ c ∈ t, rustIsWhitespace c = false) :
    (L.map rustTrim).filter (fun t => !t.isEmpty) = L := by
  induction L with
  | nil => rfl
  | cons t ts ih =>
    obtain ⟨ht1, ht2⟩ := h t (List.mem_cons_self t ts)
    have htrim : rustTrim t = t := rustTrim_eq_self t ht2
    have hne : t.isEmpty = false := by
      cases t with
      | nil => exact absurd rfl ht1
      | cons a as => rfl
    rw [List.map_cons, List.filter_cons, htrim, hne]
    simp only [Bool.not_false, if_pos]
    rw [ih (fun u hu => h u (List.mem_cons_of_mem t hu))]

/-- The first-token characterization of `parse_exposed_port`: only the first
whitespace-separated token is ever examined; it is parsed as a socket address
if possible, and everything else — including inputs whose first token is
malformed but whose later tokens are valid — yields `FailedToParsePorts`. -/
lemma parse_exposed_port_eq (s : Rstr) :
    parse_exposed_port s =
      (match splitWhitespace s with
       | [] => Except.error Error.FailedToParsePorts
       | t :: _ =>
         match parseSocketAddr t with
         | some a => Except.ok a
         | none => Except.error Error.FailedToParsePorts) := by
  unfold parse_exposed_port
  rw [map_filter_tokens (splitWhitespace s)
    (splitWhitespaceAux_tokens s [] (fun c hc => nomatch hc))]
  cases hs : splitWhitespace s with
  | nil => rfl
  | cons t ts => rfl

/-- `splitOnSpace` never returns the empty list. -/
lemma splitOnSpace_ne_nil (l : List Char) : splitOnSpace l ≠ [] := by
  cases l with
  | nil => simp [splitOnSpace]
  | cons c cs =>
    rw [splitOnSpace]
    by_cases h : c = ' '
    · simp [h]
    · rw [if_neg h]
      cases hs : splitOnSpace cs with
      | nil => simp
      | cons t ts => simp

/-! ## Claim C1 -/

/-- C1 counterexample: on the input whose first token is malformed but whose
second token is the valid address 0.0.0.0:1234, `parse_exposed_port` fails
with `FailedToParsePorts` instead of returning the later valid address that
the claimed scan-and-skip behavior would find. -/
theorem parse_exposed_port_does_not_skip_malformed :
    parse_exposed_port (("garbage 0.0.0.0:1234").data) =
        Except.error Error.FailedToParsePorts ∧
      specFirstValidToken (("garbage 0.0.0.0:1234").data) =
        some (SocketAddr.v4 0 0 0 0 1234) :=
  ⟨rfl, rfl⟩

/-- C1 amended: `parse_exposed_port` examines only the first
whitespace-separated token of its input: if that token parses as a network
address the address is returned, and otherwise — even when a later token is a
valid address — it fails with `FailedToParsePorts` (which is also the result
when there is no token at all). Malformed tokens are not skipped; only the
whitespace splitting discards (empty) padding. -/
theorem parse_exposed_port_first_token_only (s : Rstr) :
    parse_exposed_port s =
      (match splitWhitespace s with
       | [] => Except.error Error.FailedToParsePorts
       | t :: _ =>
         match parseSocketAddr t with
         | some a => Except.ok a
         | none => Except.error Error.FailedToParsePorts) :=
  parse_exposed_port_eq s

/-! ## Claim C7 -/

/-- C7: when the input consists of several whitespace- or newline-separated
tokens that are all valid addresses, `parse_exposed_port` returns the address
that appears first in document order, regardless of the later candidates. -/
theorem parse_exposed_port_first_of_multiple (s t : Rstr) (ts : List Rstr)
    (a : SocketAddr) (hsplit : splitWhitespace s = t :: ts) (hmult : ts ≠ [])
    (hrest : ∀ u ∈ ts, (parseSocketAddr u).isSome = true)
    (hfirst : parseSocketAddr t = some a) :
    parse_exposed_port s = Except.ok a := by
  rw [parse_exposed_port_eq, hsplit]
  show (match parseSocketAddr t with
    | some a => Except.ok a
    | none => Except.error Error.FailedToParsePorts) = Except.ok a
  rw [hfirst]

/-- C7 witness: the spec's own example "0.0.0.0:12345 \n [::]:54321" yields
the first candidate, port 12345, even though the later candidate differs. -/
theorem parse_exposed_port_first_of_multiple_witness :
    parse_exposed_port (("0.0.0.0:12345 \n [::]:54321").data) =
      Except.ok (SocketAddr.v4 0 0 0 0 12345) :=
  parse_exposed_port_first_of_multiple _ (("0.0.0.0:12345").data)
    [("[::]:54321").data] _ rfl (by simp)
    (by
      intro u hu
      rw [List.mem_singleton] at hu
      rw [hu]
      rfl)
    rfl

/-! ## Claim C8 -/

/-- C8: whenever no whitespace-separated token of the input parses as a
network address — in particular for empty or all-whitespace input, which has
no tokens at all — `parse_exposed_port` fails with `FailedToParsePorts`, and
that error's display message annotates that this commonly indicates the
docker daemon (the external runtime) is unreachable. -/
theorem parse_exposed_port_no_valid_token (s : Rstr)
    (h : ∀ t ∈ splitWhitespace s, parseSocketAddr t = none) :
    parse_exposed_port s = Except.error Error.FailedToParsePorts ∧
      Error.message Error.FailedToParsePorts =
        ("Failed to parse exposed ports, is your docker daemon running?").data := by
  refine ⟨?_, rfl⟩
  rw [parse_exposed_port_eq]
  cases hs : splitWhitespace s with
  | nil => rfl
  | cons t ts =>
    show (match parseSocketAddr t with
      | some a => Except.ok a
      | none => Except.error Error.FailedToParsePorts) =
        Except.error Error.FailedToParsePorts
    rw [h t (by rw [hs]; exact List.mem_cons_self t ts)]

/-- C8 witness: an input with tokens but no parseable address fails with
`FailedToParsePorts`. -/
theorem parse_exposed_port_no_valid_token_witness :
    parse_exposed_port (("not an address").data) =
      Except.error Error.FailedToParsePorts :=
  (parse_exposed_port_no_valid_token (("not an address").data)
    (by
      intro t ht
      have ht2 : t ∈ [("not").data, ("an").data, ("address").data] := ht
      rcases List.mem_cons.mp ht2 with h1 | h2
      · rw [h1]; rfl
      rcases List.mem_cons.mp h2 with h3 | h4
      · rw [h3]; rfl
      rw [List.mem_singleton] at h4
      rw [h4]; rfl)).1

/-! ## Claim C4 -/

/-- C4: if the subprocess cannot be spawned or awaited at all (the world
yields no captured output for the invocation), `run_cmd_to_output` returns a
successful result holding the empty string, not an error. -/
theorem run_cmd_to_output_spawn_failure (world : World) (cmd : Rstr)
    (h : world (mkInvocation cmd) = none) :
    run_cmd_to_output world cmd = Except.ok [] := by
  unfold run_cmd_to_output
  rw [h]

/-- C4 witness: a world in which nothing can be spawned yields `Ok ""`. -/
theorem run_cmd_to_output_spawn_failure_witness :
    run_cmd_to_output (fun _ => none) (("docker ps").data) = Except.ok [] :=
  run_cmd_to_output_spawn_failure (fun _ => none) (("docker ps").data) rfl

/-! ## Claim C6 -/

/-- C6 counterexample: on the command line "docker  ps" (two spaces) the
program-and-arguments list actually produced contains an empty argument
between "docker" and "ps", and on "docker&#9;ps" (a tab) no split happens at
all — in both cases differing from the claimed non-empty whitespace tokens. -/
theorem tokenization_not_whitespace_tokens :
    (mkInvocation (("docker  ps").data)).program ::
        (mkInvocation (("docker  ps").data)).args ≠
      specTokenize (("docker  ps").data) ∧
      (mkInvocation (("docker\tps").data)).program ::
          (mkInvocation (("docker\tps").data)).args ≠
        specTokenize (("docker\tps").data) := by
  constructor <;> decide

/-- `splitOnSpace` splits exactly at the space characters: the pieces are
space-free and rejoining them with single spaces restores the input. -/
lemma splitOnSpace_join : ∀ l : List Char,
    joinSpace (splitOnSpace l) = l ∧ ∀ t ∈ splitOnSpace l, (' ') ∉ t := by
  intro l
  induction l with
  | nil =>
    refine ⟨rfl, ?_⟩
    intro t ht
    have ht2 : t ∈ [([] : Rstr)] := ht
    rw [List.mem_singleton] at ht2
    rw [ht2]
    exact List.not_mem_nil ' '
  | cons c cs ih =>
    by_cases hc : c = ' '
    · rw [hc]
      constructor
      · show joinSpace ([] :: splitOnSpace cs) = ' ' :: cs
        cases hs : splitOnSpace cs with
        | nil => exact absurd hs (splitOnSpace_ne_nil cs)
        | cons t ts =>
          show ([] : Rstr) ++ ' ' :: joinSpace (t :: ts) = ' ' :: cs
          rw [List.nil_append, ← hs, ih.1]
      · intro t ht
        have ht2 : t ∈ [] :: splitOnSpace cs := ht
        rcases List.mem_cons.mp ht2 with h1 | h2
        · rw [h1]; exact List.not_mem_nil ' '
        · exact ih.2 t h2
    · constructor
      · show joinSpace (splitOnSpace (c :: cs)) = c :: cs
        rw [splitOnSpace, if_neg hc]
        cases hs : splitOnSpace cs with
        | nil => exact absurd hs (splitOnSpace_ne_nil cs)
        | cons t ts =>
          cases ts with
          | nil =>
            show joinSpace [c :: t] = c :: cs
            show c :: t = c :: cs
            have := ih.1
            rw [hs] at this
            show c :: t = c :: cs
            rw [show joinSpace [t] = t from rfl] at this
            rw [this]
          | cons u ts2 =>
            show (c :: t) ++ ' ' :: joinSpace (u :: ts2) = c :: cs
            have := ih.1
            rw [hs] at this
            show c :: (t ++ ' ' :: joinSpace (u :: ts2)) = c :: cs
            rw [show t ++ ' ' :: joinSpace (u :: ts2) = joinSpace (t :: u :: ts2) from rfl,
              this]
      · intro t ht
        rw [splitOnSpace, if_neg hc] at ht
        cases hs : splitOnSpace cs with
        | nil => exact absurd hs (splitOnSpace_ne_nil cs)
        | cons u ts =>
          rw [hs] at ht
          rcases List.mem_cons.mp ht with h1 | h2
          · rw [h1]
            intro hmem
            rcases List.mem_cons.mp hmem with hx | hy
            · exact hc hx.symm
            · exact ih.2 u (hs ▸ List.mem_cons_self u ts) hy
          · exact ih.2 t (hs ▸ List.mem_cons_of_mem u h2)

/-- C6 amended: the command line is tokenized on single ASCII space
characters only — the program name is the piece before the first space and
the arguments are the remaining space-separated pieces, taken verbatim: the
pieces contain no space and rejoin with single spaces to the original line.
Consequently a run of k consecutive spaces produces k-1 empty-string
arguments rather than acting as one separator, and tabs or newlines are not
separators at all. -/
theorem tokenization_single_space (cmd : Rstr) :
    (mkInvocation cmd).program :: (mkInvocation cmd).args = splitOnSpace cmd ∧
      joinSpace (splitOnSpace cmd) = cmd ∧
      ∀ t ∈ splitOnSpace cmd, (' ') ∉ t := by
  refine ⟨?_, (splitOnSpace_join cmd).1, (splitOnSpace_join cmd).2⟩
  unfold mkInvocation
  cases hs : splitOnSpace cmd with
  | nil => exact absurd hs (splitOnSpace_ne_nil cmd)
  | cons t ts => rfl

/-- C6 amended witness: on the double-space command line, the pieces are
"docker", "" and "ps"; the instantiated theorem confirms the space-free and
rejoining properties there. -/
theorem tokenization_single_space_witness :
    (mkInvocation (("docker  ps").data)).program ::
        (mkInvocation (("docker  ps").data)).args =
      splitOnSpace (("docker  ps").data) ∧ (' ') ∉ (("ps").data) :=
  ⟨(tokenization_single_space (("docker  ps").data)).1,
    (tokenization_single_space (("docker  ps").data)).2.2 (("ps").data)
      (by decide)⟩

/-- Reduction of `run_cmd_to_output` once the spawn has succeeded. -/
lemma run_cmd_to_output_some (world : World) (cmd : Rstr) (out : Output)
    (h : world (mkInvocation cmd) = some out) :
    run_cmd_to_output world cmd =
      (match utf8Decode out.stdout with
       | none => Except.error Error.InvalidOutput
       | some cps => Except.ok (rustTrim (cps.map Char.ofNat))) := by
  unfold run_cmd_to_output
  rw [h]

/-! ## Claim C9 -/

/-- C9: when the process was spawned and awaited successfully,
`run_cmd_to_output` fails with `InvalidOutput` exactly when the captured
standard-output bytes are not valid UTF-8; otherwise it returns the decoded
text with leading and trailing whitespace removed. -/
theorem run_cmd_to_output_utf8 (world : World) (cmd : Rstr) (out : Output)
    (h : world (mkInvocation cmd) = some out) :
    (run_cmd_to_output world cmd = Except.error Error.InvalidOutput ↔
      utf8Decode out.stdout = none) ∧
      ∀ cps : List Nat, utf8Decode out.stdout = some cps →
        run_cmd_to_output world cmd = Except.ok (rustTrim (cps.map Char.ofNat)) := by
  rw [run_cmd_to_output_some world cmd out h]
  cases hd : utf8Decode out.stdout with
  | none => exact ⟨by simp, fun cps hc => nomatch hc⟩
  | some cps0 =>
    refine ⟨by simp, fun cps hc => ?_⟩
    injection hc with hc2
    rw [hc2]

/-- C9 witness: a single 0xFF byte is not UTF-8 and yields `InvalidOutput`. -/
theorem run_cmd_to_output_utf8_witness :
    run_cmd_to_output (fun _ => some ⟨[255], true⟩) [] =
      Except.error Error.InvalidOutput :=
  ((run_cmd_to_output_utf8 (fun _ => some ⟨[255], true⟩) [] ⟨[255], true⟩
    rfl).1).mpr rfl

/-! ## Claim C10 -/

/-- C10: for a process that spawns and is awaited successfully with valid
UTF-8 standard output, `run_cmd_to_output` succeeds regardless of the
process's exit status: the result is determined by the standard-output bytes
alone, so replacing every exit status by an arbitrary one changes nothing. -/
theorem run_cmd_to_output_ignores_exit_status (world : World) (cmd : Rstr)
    (out : Output) (cps : List Nat) (h : world (mkInvocation cmd) = some out)
    (hdec : utf8Decode out.stdout = some cps) :
    run_cmd_to_output world cmd = Except.ok (rustTrim (cps.map Char.ofNat)) ∧
      ∀ b : Bool,
        run_cmd_to_output (fun inv => (world inv).map (fun o => ⟨o.stdout, b⟩))
            cmd =
          run_cmd_to_output world cmd := by
  constructor
  · exact (run_cmd_to_output_utf8 world cmd out h).2 cps hdec
  · intro b
    unfold run_cmd_to_output
    simp only [h, Option.map_some']

/-- C10 witness: a process that exits unsuccessfully but prints the valid
text "ok" still yields a successful result, unchanged if the status is
flipped. -/
theorem run_cmd_to_output_ignores_exit_status_witness :
    run_cmd_to_output (fun _ => some ⟨[111, 107], false⟩) [] =
        Except.ok (rustTrim ([111, 107].map Char.ofNat)) ∧
      ∀ b : Bool,
        run_cmd_to_output
            (fun inv =>
              (some (Output.mk [111, 107] false)).map (fun o => ⟨o.stdout, b⟩)) [] =
          run_cmd_to_output (fun _ => some ⟨[111, 107], false⟩) [] :=
  run_cmd_to_output_ignores_exit_status (fun _ => some ⟨[111, 107], false⟩) []
    ⟨[111, 107], false⟩ [111, 107] rfl rfl

/-! ## Claim C2 -/

/-- The port-query command is never a stop or remove command, whatever
identity is interpolated into it. -/
lemma noTeardownCmd_portCmd (cid : Rstr) : noTeardownCmd (portCmd cid) = true := rfl

/-- C2: if any of step 1 (start container), step 2 (port query) or step 3
(endpoint parse) fails, `Postgres::spawn` returns exactly the error of the
first failing step (so no handle is constructed), and none of the command
lines it issued is a stop or remove command — a container started in step 1
is not torn down through the normal path. -/
theorem spawn_error_propagates (world : World) (e : Error)
    (h : (Postgres.spawn world).result = Except.error e) :
    firstStepError world = some e ∧
      (Postgres.spawn world).issued.all noTeardownCmd = true := by
  cases h1 : run_cmd_to_output world spawnCmd with
  | error e1 =>
    simp only [Postgres.spawn, h1, Except.error.injEq] at h
    subst h
    simp only [firstStepError, Postgres.spawn, h1]
    exact ⟨trivial, rfl⟩
  | ok cid =>
    cases h2 : run_cmd_to_output world (portCmd cid) with
    | error e2 =>
      simp only [Postgres.spawn, h1, h2, Except.error.injEq] at h
      subst h
      simp only [firstStepError, Postgres.spawn, h1, h2]
      exact ⟨trivial, rfl⟩
    | ok ep =>
      cases h3 : parse_exposed_port ep with
      | error e3 =>
        simp only [Postgres.spawn, h1, h2, h3, Except.error.injEq] at h
        subst h
        simp only [firstStepError, Postgres.spawn, h1, h2, h3]
        exact ⟨trivial, rfl⟩
      | ok sa =>
        simp only [Postgres.spawn, h1, h2, h3] at h
        exact absurd h (by simp)

/-- C2 witness: in a world where every command produces the non-UTF-8 byte
0xC0, step 1 fails with `InvalidOutput`, that error is surfaced, and no
teardown command was issued. -/
theorem spawn_error_propagates_witness :
    firstStepError (fun _ => some ⟨[192], true⟩) = some Error.InvalidOutput ∧
      (Postgres.spawn (fun _ => some ⟨[192], true⟩)).issued.all noTeardownCmd =
        true :=
  spawn_error_propagates (fun _ => some ⟨[192], true⟩) Error.InvalidOutput rfl

/-! ## Claim C3 -/

/-- C3: teardown always issues the stop command for the handle's identity and
then the remove command for the same identity, in that order and
unconditionally — in particular the remove command is still issued when the
stop command fails — and a failing stop command is logged on the diagnostic
channel. `Postgres.drop` is a total function into `TeardownTrace`: no
combination of stop/remove outcomes produces an error for the caller. -/
theorem drop_stop_then_rm (world : World) (pg : Postgres) :
    (Postgres.drop world pg).issued =
        [stopCmd pg.container_id, rmCmd pg.container_id] ∧
      ∀ e : Error,
        run_cmd_for_effect world (stopCmd pg.container_id) = Except.error e →
        (("Failed to stop docker container: ").data ++ e.message) ∈
          (Postgres.drop world pg).logged := by
  refine ⟨rfl, ?_⟩
  intro e he
  have hlog : (Postgres.drop world pg).logged =
      (("Failed to stop docker container: ").data ++ e.message) ::
        (match run_cmd_for_effect world (rmCmd pg.container_id) with
         | Except.error e2 =>
             [("Failed to remove docker container: ").data ++ e2.message]
         | Except.ok _ => []) := by
    unfold Postgres.drop
    rw [he]
    rfl
  rw [hlog]
  exact List.mem_cons_self _ _

/-- C3 witness: in a world where every command's output is the invalid byte
0xFF, the stop command fails and its failure message is logged (while the
remove command is still issued, by the first conjunct of the theorem). -/
theorem drop_stop_then_rm_witness :
    (("Failed to stop docker container: ").data ++
        Error.message Error.InvalidOutput) ∈
      (Postgres.drop (fun _ => some ⟨[255], true⟩)
        ⟨("abc").data, SocketAddr.v4 0 0 0 0 1⟩).logged :=
  (drop_stop_then_rm (fun _ => some ⟨[255], true⟩)
    ⟨("abc").data, SocketAddr.v4 0 0 0 0 1⟩).2 Error.InvalidOutput rfl

/-! ## Claim C5 -/

/-- C5 counterexample: under `worldFive`, `Postgres::spawn` successfully
constructs a handle whose `container_id` is the empty string — so a
successfully constructed handle's identity is not always non-empty under
arbitrary gateway outputs. -/
theorem spawn_ok_empty_identity :
    (Postgres.spawn worldFive).result =
        Except.ok ⟨[], SocketAddr.v4 0 0 0 0 80⟩ ∧
      (Postgres.mk [] (SocketAddr.v4 0 0 0 0 80)).container_id = [] :=
  ⟨rfl, rfl⟩

/-- C5 amended: the identity of every successfully constructed handle is
exactly the (trimmed, decoded) stdout text that the gateway returned for the
start command — nothing more is guaranteed: it is non-empty precisely when
that text is, and since the handle is never mutated it stays that text for
the handle's lifetime. -/
theorem spawn_identity_provenance (world : World) (pg : Postgres)
    (h : (Postgres.spawn world).result = Except.ok pg) :
    run_cmd_to_output world spawnCmd = Except.ok pg.container_id := by
  cases h1 : run_cmd_to_output world spawnCmd with
  | error e1 =>
    simp only [Postgres.spawn, h1] at h
    exact absurd h (by simp)
  | ok cid =>
    cases h2 : run_cmd_to_output world (portCmd cid) with
    | error e2 =>
      simp only [Postgres.spawn, h1, h2] at h
      exact absurd h (by simp)
    | ok ep =>
      cases h3 : parse_exposed_port ep with
      | error e3 =>
        simp only [Postgres.spawn, h1, h2, h3] at h
        exact absurd h (by simp)
      | ok sa =>
        simp only [Postgres.spawn, h1, h2, h3, Except.ok.injEq] at h
        rw [← h]


/-- C5 amended witness: under `worldFiveW` the constructed handle's identity
is the start command's output text "abc123". -/
theorem spawn_identity_provenance_witness :
    run_cmd_to_output worldFiveW spawnCmd = Except.ok (("abc123").data) :=
  spawn_identity_provenance worldFiveW
    ⟨("abc123").data, SocketAddr.v4 0 0 0 0 5432⟩ rfl

end DockerDb
